import Mathlib

/-!
Verification of the querychat python package (file querychat/querychat.py)
against its natural-language specification.

The development shallowly embeds the pure content of the source file:

* string replacement as performed by the python method str.replace
  (scan left to right, replace non-overlapping occurrences);
* the schema summarizer df_to_schema, over a model of dataframes as lists
  of typed columns whose cells are optional values (None = missing);
* the prompt builder system_prompt;
* the configuration constructor init, including the exact semantics of
  re.match applied to the anchored pattern used for table names (in python
  the dollar anchor also matches just before one trailing newline);
* the two tool functions update_dashboard and query, with the transcript
  modelled as the list of streamed chunks, the query engine as an explicit
  function argument, and raised exceptions as the error case of Except;
* the reactive derivation filtered_df and the startup greeting logic.

External collaborators (the html renderer of pandas, the per-record json
serializer, the sql engine itself) are function parameters: the source only
orchestrates them.
-/

namespace Querychat

/-! ## Python string replacement -/

/-- Boolean prefix test on character lists, used by the replacement scanner. -/
def isPre : List Char → List Char → Bool
  | [], _ => true
  | _ :: _, [] => false
  | a :: as, b :: bs => a == b && isPre as bs

/-- Boolean substring test on character lists (is pat a contiguous sublist). -/
def containsSub (pat : List Char) : List Char → Bool
  | [] => pat.isEmpty
  | c :: cs => isPre pat (c :: cs) || containsSub pat cs

/-- Replacement of every non-overlapping occurrence of pat by rep, scanning
left to right and never rescanning the replacement text: the semantics of the
python method str.replace for a non-empty pattern (the source only ever
replaces the three non-empty placeholder tokens). -/
def replaceAllL (pat rep : List Char) : List Char → List Char
  | [] => []
  | c :: cs =>
    if isPre pat (c :: cs) then
      rep ++ replaceAllL pat rep (List.drop (pat.length - 1) cs)
    else
      c :: replaceAllL pat rep cs
termination_by l => l.length
decreasing_by
  · simp only [List.length_cons, List.length_drop]
    omega
  · simp only [List.length_cons]
    omega

/-- String-level wrapper for replaceAllL, modelling python str.replace. -/
def strReplace (s pat rep : String) : String :=
  String.mk (replaceAllL pat.data rep.data s.data)

/-- The newline character. -/
def chr10 : Char := '\n'

/-- Split a character list at newline characters, keeping empty segments:
the semantics of the python expression s.split with separator newline. -/
def splitLines : List Char → List (List Char)
  | [] => [[]]
  | c :: cs =>
    match splitLines cs with
    | [] => [[c]]
    | h :: t => if c == chr10 then [] :: h :: t else (c :: h) :: t

/-! ## Dataframe model and the schema summarizer -/

/-- The four sql-ish labels the source gives to columns that receive a range
annotation: INTEGER, FLOAT, DATE and TIME (the label the source gives to
datetime columns). -/
inductive NumKind
  | integer
  | float
  | date
  | time

/-- The label printed for each numeric or temporal kind. -/
def numKindName : NumKind → String
  | NumKind.integer => "INTEGER"
  | NumKind.float => "FLOAT"
  | NumKind.date => "DATE"
  | NumKind.time => "TIME"

/-- A column of the dataframe: its dtype determines which branch of
df_to_schema runs. Cells are optional (none = missing value). Numeric and
temporal cells are modelled as integers; only their linear order and their
printed form matter to the source. -/
inductive Column
  | numCol (name : String) (kind : NumKind) (values : List (Option Int))
  | boolCol (name : String) (values : List (Option Bool))
  | textCol (name : String) (values : List (Option String))

/-- The name of a column. -/
def colName : Column → String
  | Column.numCol n _ _ => n
  | Column.boolCol n _ => n
  | Column.textCol n _ => n

/-- The sql-like type label chosen by the dtype dispatch of df_to_schema. -/
def sqlTypeName : Column → String
  | Column.numCol _ k _ => numKindName k
  | Column.boolCol _ _ => "BOOLEAN"
  | Column.textCol _ _ => "TEXT"

/-- Helper for uniqueFirst: keep the values not seen yet, remembering the
seen ones in the accumulator. -/
def uniqueFirstAux (seen : List String) : List String → List String
  | [] => []
  | x :: xs =>
    if seen.contains x then uniqueFirstAux seen xs
    else x :: uniqueFirstAux (seen ++ [x]) xs

/-- Distinct values in order of first appearance: the semantics of the
series method unique after drop_nulls for the pandas backend. -/
def uniqueFirst (l : List String) : List String := uniqueFirstAux [] l

/-- Printed form of an optional integer cell, as a python f-string would
render it (None prints as the word None; that branch is unreachable for the
pair produced by min and max). -/
def fmtOptInt : Option Int → String
  | some n => toString n
  | none => "None"

/-- The lines contributed by one column to the schema text: the header line,
then for TEXT columns the categorical line when the distinct non-missing
count is within the threshold, and for INTEGER, FLOAT, DATE and TIME columns
the range line (NULL to NULL when min and max are both absent). -/
def columnInfo (categorical_threshold : Nat) (c : Column) : List String :=
  let header := "- " ++ colName c ++ " (" ++ sqlTypeName c ++ ")"
  match c with
  | Column.textCol _ vs =>
    let unique_values := uniqueFirst (vs.filterMap id)
    if unique_values.length ≤ categorical_threshold then
      [header,
       "  Categorical values: " ++
         String.intercalate ", "
           (unique_values.map (fun c => "\x27" ++ c ++ "\x27"))]
    else
      [header]
  | Column.numCol _ _ vs =>
    let nonMissing := vs.filterMap id
    match nonMissing.min?, nonMissing.max? with
    | none, none => [header, "  Range: NULL to NULL"]
    | mn, mx =>
      [header, "  Range: " ++ fmtOptInt mn ++ " to " ++ fmtOptInt mx]
  | Column.boolCol _ _ => [header]

/-- The schema summarizer df_to_schema: a table header, a Columns line, then
the block of each column in dataframe order, joined by newlines. -/
def df_to_schema (df : List Column) (table_name : String)
    (categorical_threshold : Nat) : String :=
  String.intercalate "\n"
    (["Table: " ++ table_name, "Columns:"] ++
     (df.map (columnInfo categorical_threshold)).flatten)

/-! ## Prompt builder -/

/-- The data-description wrapper built by system_prompt when the argument is
truthy: header line, opening tag, the text, closing tag. -/
def ddWrapper (d : String) : String :=
  "Additional helpful info about the data:\n\n<data_description>\n" ++ d ++
    "\n</data_description>"

/-- The section substituted for the data-description placeholder. The source
tests the argument for python truthiness, so both an absent argument and an
empty string produce the empty section. -/
def dataDescriptionSection : Option String → String
  | some d => if d = "" then "" else ddWrapper d
  | none => ""

/-- The placeholder token for the schema block. -/
def phSchema : String := "\x7b\x7bschema\x7d\x7d"

/-- The placeholder token for the data-description block. -/
def phData : String := "\x7b\x7bdata_description\x7d\x7d"

/-- The placeholder token for the extra-instructions block. -/
def phExtra : String := "\x7b\x7bextra_instructions\x7d\x7d"

/-- The prompt builder system_prompt: compute the schema text, then replace
the three placeholder tokens in the template text in order. The template file
contents are a parameter (the source reads them from disk). -/
def system_prompt (promptText : String) (df : List Column)
    (table_name : String) (data_description extra_instructions : Option String)
    (categorical_threshold : Nat) : String :=
  let schema := df_to_schema df table_name categorical_threshold
  let p1 := strReplace promptText phSchema schema
  let p2 := strReplace p1 phData (dataDescriptionSection data_description)
  strReplace p2 phExtra (extra_instructions.getD "")

/-- Modelled from the spec: the template file prompt/prompt.md is read from
disk by the source and is not among the provided sources. Section 6 of the
spec describes it as a fixed instructional text containing exactly the three
literal placeholder tokens, each substituted by exact string match. -/
def tmplA : String := "You are a helpful data analysis assistant.\n\n"

/-- Modelled from the spec: text between the schema placeholder and the
data-description placeholder of the template file. -/
def tmplB : String := "\n\n"

/-- Modelled from the spec: text between the data-description placeholder and
the extra-instructions placeholder of the template file. -/
def tmplC : String := "\n\n"

/-- Modelled from the spec: text after the extra-instructions placeholder of
the template file. -/
def tmplD : String := "\n"

/-- Modelled from the spec: the whole template file, assembled from the four
surrounding texts and the three placeholder tokens. -/
def promptTemplate : String :=
  tmplA ++ phSchema ++ tmplB ++ phData ++ tmplC ++ phExtra ++ tmplD

/-! ## Session configuration -/

/-- The language literally denoted by the anchored regular expression that
the spec writes for table names (a letter followed by letters, digits and
underscores, matching the whole string): this is the reading of the pattern
under ordinary full-match regex semantics, kept for comparison with the
python behaviour. -/
def fullPat : List Char → Bool
  | [] => false
  | c :: cs => c.isAlpha && cs.all (fun d => d.isAlpha || d.isDigit || d == '_')

/-- The result of the python call re.match applied to the anchored table-name
pattern: python re.match anchors at the start, and in default mode the dollar
anchor matches at the end of the string or just before a newline that ends
the string, so the pattern also accepts a name followed by one trailing
newline. -/
def pyRegexMatch (l : List Char) : Bool :=
  fullPat l || (l.getLast? == some chr10 && fullPat l.dropLast)

/-- The configuration record returned by init (the live duckdb connection and
the chat-client factory carry no pure content and are omitted; the dataframe
is registered under the validated table name). -/
structure QueryChatConfig where
  df : List Column
  table_name : String
  system_prompt : String
  greeting : Option String

/-- The error message raised by init for an invalid table name. -/
def invalidNameMsg : String :=
  "Table name must begin with a letter and contain only letters, numbers, and underscores"

/-- The configuration constructor init: validate the table name with
re.match, then build the system prompt (unless overridden) and return the
configuration. Raising ValueError is modelled by the error case. -/
def init (promptText : String) (df : List Column) (table_name : String)
    (greeting data_description extra_instructions system_prompt_override :
      Option String) :
    Except String QueryChatConfig :=
  if pyRegexMatch table_name.data then
    Except.ok
      { df := df
        table_name := table_name
        system_prompt :=
          match system_prompt_override with
          | some p => p
          | none =>
            system_prompt promptText df table_name data_description
              extra_instructions 10
        greeting := greeting }
  else
    Except.error invalidNameMsg

/-! ## Session controller: greeting logic -/

/-- What the startup effect greet_on_startup does: display the configured
greeting, ask the model for one, or nothing. -/
inductive GreetAction
  | displayGreeting (g : String)
  | requestModelGreeting
  | noAction
deriving DecidableEq

/-- The startup effect greet_on_startup: if the configured greeting is truthy
(a non-empty string) it is appended to the chat verbatim; otherwise, if the
greeting is None, a one-shot model request for a friendly greeting is
streamed; an empty-string greeting falls through both branches and nothing
happens. -/
def greet_on_startup (greeting : Option String) : GreetAction :=
  match greeting with
  | some g => if g = "" then GreetAction.noAction else GreetAction.displayGreeting g
  | none => GreetAction.requestModelGreeting

/-- The condition computed (and then discarded) by the server body when
choosing how to greet: the greeting is present and some line of it is
non-empty. -/
def greeting_has_content (g : String) : Bool :=
  (splitLines g.data).any (fun line => !line.isEmpty)

/-! ## Session state and the two tools -/

/-- The per-session reactive values: current sql text (initially empty) and
current title (initially None). -/
structure SessionState where
  currentQuery : String
  currentTitle : Option String

/-- Printed form of an optional string inside a python f-string. -/
def fmtPyOpt : Option String → String
  | some s => s
  | none => "None"

/-- The sql code block streamed into the transcript by both tools. -/
def sqlBlock (q : Option String) : String :=
  "\n```sql\n" ++ fmtPyOpt q ++ "\n```\n\n"

/-- The error chunk streamed into the transcript when the engine rejects a
query. -/
def errorLine (e : String) : String := "> Error: " ++ e ++ "\n\n"

/-- The tool update_dashboard: stream the sql block; try the query against
the engine; on failure stream the error text and re-raise, leaving both
reactive values untouched; on success set current_query when the query
argument is not None and current_title when the title argument is not None.
The result is the transcript chunks, the resulting session state, and the
outcome. -/
def update_dashboard (execQ : Option String → Except String Unit)
    (query title : Option String) (s : SessionState) :
    List String × SessionState × Except String Unit :=
  match execQ query with
  | Except.error e => ([sqlBlock query, errorLine e], s, Except.error e)
  | Except.ok _ =>
    ([sqlBlock query],
     { currentQuery :=
         match query with
         | some q => q
         | none => s.currentQuery
       currentTitle :=
         match title with
         | some t => some t
         | none => s.currentTitle },
     Except.ok ())

/-- A result row: ordered field-value pairs, the shape serialized by the
records orientation of to_json. -/
abbrev Row := List (String × String)

/-- The json array of row objects returned by to_json with the records
orientation: the per-record serialization is a parameter (pandas performs
it), the array structure is the bracketed comma-join of all records. -/
def dfToJsonRecords (rowJson : Row → String) (rows : List Row) : String :=
  "[" ++ String.intercalate "," (rows.map rowJson) ++ "]"

/-- The preview builder df_to_html: render the first maxrows rows with the
external html renderer, then append the truncation notice exactly when the
shortened frame has fewer rows than the full one. -/
def df_to_html (render : List Row → String) (rows : List Row)
    (maxrows : Nat) : String :=
  render (rows.take maxrows) ++
    (if (rows.take maxrows).length != rows.length then
      "\n\n(Showing only the first " ++ toString maxrows ++ " rows out of " ++
        toString rows.length ++ ".)\n"
    else "")

/-- The tool query: stream the sql block; execute; on failure stream the
error text and re-raise; on success stream the capped html preview (cap 5)
and return the json serialization of the full, uncapped result. -/
def query (render : List Row → String) (rowJson : Row → String)
    (execDf : String → Except String (List Row)) (q : String) :
    List String × Except String String :=
  match execDf q with
  | Except.error e => ([sqlBlock (some q), errorLine e], Except.error e)
  | Except.ok result_df =>
    ([sqlBlock (some q), df_to_html render result_df 5 ++ "\n\n"],
     Except.ok (dfToJsonRecords rowJson result_df))

/-- The reactive calculation filtered_df: the unfiltered dataframe when the
current query text is empty, otherwise the result of re-executing the current
query against the engine. -/
def filtered_df {D : Type} (df : D) (execDf : String → D)
    (s : SessionState) : D :=
  if s.currentQuery = "" then df else execDf s.currentQuery

/-! ## Concrete fixtures used by the witnesses -/

/-- A twenty-row result set. -/
def rows20 : List Row := List.replicate 20 [("name", "cat")]

/-- An engine that returns the twenty-row result for every query. -/
def execDf20 : String → Except String (List Row) :=
  fun _ => Except.ok rows20

/-- A trivial html renderer. -/
def render0 : List Row → String := fun _ => "<table></table>"

/-- A trivial record serializer. -/
def rowJson0 : Row → String := fun _ => "\x7b\x22name\x22:\x22cat\x22\x7d"

/-- An engine that accepts every query. -/
def execOkAlways : Option String → Except String Unit :=
  fun _ => Except.ok ()

/-- An engine that rejects every query with a parser error. -/
def execErrAlways : Option String → Except String Unit :=
  fun _ => Except.error "Parser Error: syntax error at or near SELEKT"

/-- The opening brace character, the first character of every placeholder. -/
def br : Char := '\x7b'

/-! ## Lemmas about the replacement scanner -/

theorem isPre_iff (p l : List Char) : isPre p l = true ↔ p <+: l := by
  induction p generalizing l with
  | nil => simp [isPre]
  | cons a as ih =>
    cases l with
    | nil => simp [isPre]
    | cons b bs => simp [isPre, List.cons_prefix_cons, ih]

theorem containsSub_iff (pat l : List Char) :
    containsSub pat l = true ↔ pat <:+: l := by
  induction l with
  | nil =>
    simp [containsSub, List.isEmpty_iff]
  | cons c cs ih =>
    simp [containsSub, isPre_iff, ih, List.infix_cons_iff]

theorem replaceAllL_nil (pat rep : List Char) : replaceAllL pat rep [] = [] := by
  simp [replaceAllL]

theorem replaceAllL_cons (pat rep : List Char) (c : Char) (cs : List Char) :
    replaceAllL pat rep (c :: cs) =
      if isPre pat (c :: cs) then
        rep ++ replaceAllL pat rep (List.drop (pat.length - 1) cs)
      else c :: replaceAllL pat rep cs := by
  rw [replaceAllL]

theorem replaceAllL_skip (p0 : Char) (pt rep X Y : List Char)
    (hX : ∀ c ∈ X, c ≠ p0) :
    replaceAllL (p0 :: pt) rep (X ++ Y) = X ++ replaceAllL (p0 :: pt) rep Y := by
  induction X with
  | nil => simp
  | cons c cs ih =>
    have hc : c ≠ p0 := hX c (List.mem_cons_self c cs)
    have hcs : ∀ d ∈ cs, d ≠ p0 := fun d hd => hX d (List.mem_cons_of_mem c hd)
    have hpre : isPre (p0 :: pt) (c :: (cs ++ Y)) = false := by
      have hb : (p0 == c) = false := beq_eq_false_iff_ne.mpr (Ne.symm hc)
      simp [isPre, hb]
    rw [List.cons_append, replaceAllL_cons, hpre]
    rw [if_neg Bool.false_ne_true, ih hcs, List.cons_append]

theorem replaceAllL_here (p0 : Char) (pt rep Y : List Char) :
    replaceAllL (p0 :: pt) rep ((p0 :: pt) ++ Y) =
      rep ++ replaceAllL (p0 :: pt) rep Y := by
  have hpre : isPre (p0 :: pt) (p0 :: (pt ++ Y)) = true :=
    (isPre_iff _ _).mpr (List.cons_prefix_cons.mpr ⟨rfl, List.prefix_append pt Y⟩)
  rw [List.cons_append, replaceAllL_cons, hpre, if_pos rfl]
  congr 1
  have hlen : (p0 :: pt).length - 1 = pt.length := by simp
  rw [hlen, List.drop_left]

theorem replaceAllL_no_occurrence (pat rep X : List Char)
    (h : containsSub pat X = false) :
    replaceAllL pat rep X = X := by
  induction X with
  | nil => exact replaceAllL_nil pat rep
  | cons c cs ih =>
    have hsplit : isPre pat (c :: cs) = false ∧ containsSub pat cs = false := by
      have := h
      simp only [containsSub, Bool.or_eq_false_iff] at this
      exact this
    rw [replaceAllL_cons, hsplit.1, if_neg Bool.false_ne_true, ih hsplit.2]

theorem replaceAllL_seg (pat rep X Z : List Char) (p0 : Char)
    (hhead : pat.head? = some p0)
    (hX : ∀ c ∈ X, c ≠ p0) (hZ : containsSub pat Z = false) :
    replaceAllL pat rep (X ++ (pat ++ Z)) = X ++ (rep ++ Z) := by
  cases pat with
  | nil => simp at hhead
  | cons q qt =>
    have hq : q = p0 := by simpa using hhead
    subst hq
    rw [replaceAllL_skip q qt rep X ((q :: qt) ++ Z) hX, replaceAllL_here,
        replaceAllL_no_occurrence _ _ _ hZ]

theorem strData_append (a b : String) : (a ++ b).data = a.data ++ b.data := rfl

/-! ## Structure of the built prompt

When the substituted texts contain no opening brace (the first character of
every placeholder token), the three successive replacements performed by
system_prompt on the template amount to a single structural substitution, and
the output decomposes as the template text around the three inserted
blocks. -/

theorem system_prompt_promptTemplate_data (df : List Column) (tn : String)
    (dd ei : Option String)
    (hschema : ∀ c ∈ (df_to_schema df tn 10).data, c ≠ br)
    (hsect : ∀ c ∈ (dataDescriptionSection dd).data, c ≠ br) :
    (system_prompt promptTemplate df tn dd ei 10).data =
      tmplA.data ++ (df_to_schema df tn 10).data ++ tmplB.data ++
        (dataDescriptionSection dd).data ++ tmplC.data ++ (ei.getD "").data ++
        tmplD.data := by
  have hA : ∀ c ∈ tmplA.data, c ≠ br := by decide
  have hB : ∀ c ∈ tmplB.data, c ≠ br := by decide
  have hC : ∀ c ∈ tmplC.data, c ≠ br := by decide
  have hd0 : promptTemplate.data =
      tmplA.data ++ (phSchema.data ++
        (tmplB.data ++ (phData.data ++
          (tmplC.data ++ (phExtra.data ++ tmplD.data))))) := by decide
  have hX2 : ∀ c ∈ tmplA.data ++ ((df_to_schema df tn 10).data ++ tmplB.data),
      c ≠ br := by
    intro c hc
    rcases List.mem_append.1 hc with h | h
    · exact hA c h
    rcases List.mem_append.1 h with h | h
    · exact hschema c h
    · exact hB c h
  have hX3 : ∀ c ∈ (tmplA.data ++ ((df_to_schema df tn 10).data ++ tmplB.data))
      ++ ((dataDescriptionSection dd).data ++ tmplC.data), c ≠ br := by
    intro c hc
    rcases List.mem_append.1 hc with h | h
    · exact hX2 c h
    rcases List.mem_append.1 h with h | h
    · exact hsect c h
    · exact hC c h
  have h1 : replaceAllL phSchema.data (df_to_schema df tn 10).data
      promptTemplate.data =
      tmplA.data ++ ((df_to_schema df tn 10).data ++
        (tmplB.data ++ (phData.data ++
          (tmplC.data ++ (phExtra.data ++ tmplD.data))))) := by
    rw [hd0]
    exact replaceAllL_seg phSchema.data _ tmplA.data _ br (by decide) hA
      (by decide)
  have h2 : replaceAllL phData.data (dataDescriptionSection dd).data
      (tmplA.data ++ ((df_to_schema df tn 10).data ++
        (tmplB.data ++ (phData.data ++
          (tmplC.data ++ (phExtra.data ++ tmplD.data)))))) =
      (tmplA.data ++ ((df_to_schema df tn 10).data ++ tmplB.data)) ++
        ((dataDescriptionSection dd).data ++
          (tmplC.data ++ (phExtra.data ++ tmplD.data))) := by
    have hre : tmplA.data ++ ((df_to_schema df tn 10).data ++
        (tmplB.data ++ (phData.data ++
          (tmplC.data ++ (phExtra.data ++ tmplD.data))))) =
        (tmplA.data ++ ((df_to_schema df tn 10).data ++ tmplB.data)) ++
          (phData.data ++ (tmplC.data ++ (phExtra.data ++ tmplD.data))) := by
      simp [List.append_assoc]
    rw [hre]
    exact replaceAllL_seg phData.data _ _ _ br (by decide) hX2 (by decide)
  have h3 : replaceAllL phExtra.data (ei.getD "").data
      ((tmplA.data ++ ((df_to_schema df tn 10).data ++ tmplB.data)) ++
        ((dataDescriptionSection dd).data ++
          (tmplC.data ++ (phExtra.data ++ tmplD.data)))) =
      ((tmplA.data ++ ((df_to_schema df tn 10).data ++ tmplB.data)) ++
        ((dataDescriptionSection dd).data ++ tmplC.data)) ++
        ((ei.getD "").data ++ tmplD.data) := by
    have hre : (tmplA.data ++ ((df_to_schema df tn 10).data ++ tmplB.data)) ++
        ((dataDescriptionSection dd).data ++
          (tmplC.data ++ (phExtra.data ++ tmplD.data))) =
        ((tmplA.data ++ ((df_to_schema df tn 10).data ++ tmplB.data)) ++
          ((dataDescriptionSection dd).data ++ tmplC.data)) ++
          (phExtra.data ++ tmplD.data) := by
      simp [List.append_assoc]
    rw [hre]
    exact replaceAllL_seg phExtra.data _ _ _ br (by decide) hX3 (by decide)
  show replaceAllL phExtra.data (ei.getD "").data
      (replaceAllL phData.data (dataDescriptionSection dd).data
        (replaceAllL phSchema.data (df_to_schema df tn 10).data
          promptTemplate.data)) = _
  rw [h1, h2, h3]
  simp [List.append_assoc]

/-! ## C5 and C10: the prompt builder -/

/-- C5 (amended): the prompt builder is a pure function (identical template
contents, dataset, table name, data description, extra instructions and
threshold give identical output), and the data-description section (header
and body) is present in the built prompt if and only if the data_description
argument is present AND non-empty: an absent argument and an empty-string
argument both omit the section entirely (the output is byte-identical to the
absent case, with no empty headers), while a present non-empty argument makes
the full wrapped section a substring of the output. Stated for the template
of the repository, for inputs whose substituted texts contain no opening
brace. -/
theorem system_prompt_deterministic_section_iff (df : List Column)
    (tn : String) (dd ei : Option String)
    (hschema : ∀ c ∈ (df_to_schema df tn 10).data, c ≠ br)
    (hsect : ∀ c ∈ (dataDescriptionSection dd).data, c ≠ br) :
    (∀ (t₁ t₂ : String) (df₁ df₂ : List Column) (n₁ n₂ : String)
        (d₁ d₂ e₁ e₂ : Option String) (k₁ k₂ : Nat),
        t₁ = t₂ → df₁ = df₂ → n₁ = n₂ → d₁ = d₂ → e₁ = e₂ → k₁ = k₂ →
        system_prompt t₁ df₁ n₁ d₁ e₁ k₁ = system_prompt t₂ df₂ n₂ d₂ e₂ k₂)
    ∧ system_prompt promptTemplate df tn dd ei 10 =
        tmplA ++ df_to_schema df tn 10 ++ tmplB ++ dataDescriptionSection dd ++
          tmplC ++ ei.getD "" ++ tmplD
    ∧ ((dd = none ∨ dd = some "") →
        system_prompt promptTemplate df tn dd ei 10 =
          system_prompt promptTemplate df tn none ei 10)
    ∧ (∀ d, dd = some d → d ≠ "" →
        (ddWrapper d).data <:+:
          (system_prompt promptTemplate df tn dd ei 10).data) := by
  refine ⟨?_, ?_, ?_, ?_⟩
  · intro t₁ t₂ df₁ df₂ n₁ n₂ d₁ d₂ e₁ e₂ k₁ k₂ h1 h2 h3 h4 h5 h6
    subst h1; subst h2; subst h3; subst h4; subst h5; subst h6; rfl
  · apply String.ext
    rw [system_prompt_promptTemplate_data df tn dd ei hschema hsect]
    simp [strData_append, List.append_assoc]
  · rintro (rfl | rfl) <;> rfl
  · intro d hdd hne
    subst hdd
    have hw : dataDescriptionSection (some d) = ddWrapper d := by
      simp [dataDescriptionSection, hne]
    refine ⟨tmplA.data ++ (df_to_schema df tn 10).data ++ tmplB.data,
      tmplC.data ++ (ei.getD "").data ++ tmplD.data, ?_⟩
    rw [system_prompt_promptTemplate_data df tn (some d) ei hschema hsect, hw]
    simp [List.append_assoc]

/-- Witness for C5: at the repository template, an empty dataset, table name
cats and a non-empty data description, the hypotheses hold and the wrapped
data-description section is a substring of the built prompt. -/
theorem system_prompt_deterministic_section_iff_witness :
    (∀ c ∈ (df_to_schema [] "cats" 10).data, c ≠ br)
    ∧ (ddWrapper "These are cats.").data <:+:
        (system_prompt promptTemplate [] "cats" (some "These are cats.") none
          10).data :=
  ⟨by decide,
   (system_prompt_deterministic_section_iff [] "cats" (some "These are cats.")
      none (by decide) (by decide)).2.2.2 "These are cats." rfl (by decide)⟩

/-- Counterexample for C5 as stated: with a present but empty data_description
argument, the built prompt is byte-identical to the prompt built with the
argument absent, and the data-description section (its opening tag included)
does not occur in it — so "section present iff argument present" fails at the
explicit input some empty-string. -/
theorem system_prompt_empty_description_counterexample :
    (system_prompt promptTemplate [] "cats" (some "") none 10 =
      system_prompt promptTemplate [] "cats" none none 10)
    ∧ ¬ (("<data_description>").data <:+:
        (system_prompt promptTemplate [] "cats" (some "") none 10).data) := by
  constructor
  · rfl
  · intro hinf
    rw [system_prompt_promptTemplate_data [] "cats" (some "") none (by decide)
      (by decide)] at hinf
    exact absurd ((containsSub_iff _ _).mpr hinf) (by decide)

/-- C10: the prompt builder tests data_description for python truthiness, not
presence: a present empty-string data_description builds byte-for-byte the
same prompt as an absent one (for every template, dataframe, table name,
extra instructions and threshold), and the section substituted for its
placeholder is the empty string. -/
theorem system_prompt_truthiness (tmpl : String) (df : List Column)
    (tn : String) (ei : Option String) (th : Nat) :
    system_prompt tmpl df tn (some "") ei th =
      system_prompt tmpl df tn none ei th
    ∧ dataDescriptionSection (some "") = "" :=
  ⟨rfl, rfl⟩

/-! ## C2: table-name validation in init -/

theorem init_isOk_eq (p : String) (df : List Column) (name : String)
    (g dd ei spo : Option String) :
    (init p df name g dd ei spo).isOk = pyRegexMatch name.data := by
  unfold init
  by_cases h : pyRegexMatch name.data = true
  · rw [if_pos h, h]
    rfl
  · rw [if_neg h]
    have hf : pyRegexMatch name.data = false := by
      cases hb : pyRegexMatch name.data
      · rfl
      · exact absurd hb h
    rw [hf]
    rfl

/-- C2 (amended): init succeeds exactly on the table names accepted by the
python call re.match with the anchored pattern — a letter followed by
letters, digits and underscores, optionally followed by one trailing newline
(the python dollar anchor also matches just before a newline that ends the
string). In particular it raises the invalid-name error for the name 3cats
and succeeds for the name cats_3, whatever the other arguments are. -/
theorem init_table_name_validation (p : String) (df : List Column)
    (name : String) (g dd ei spo : Option String) :
    ((init p df name g dd ei spo).isOk = pyRegexMatch name.data)
    ∧ init p df "3cats" g dd ei spo = Except.error invalidNameMsg
    ∧ (init p df "cats_3" g dd ei spo).isOk = true := by
  refine ⟨init_isOk_eq p df name g dd ei spo, ?_, ?_⟩
  · unfold init
    rw [if_neg (show ¬ pyRegexMatch (("3cats" : String)).data = true by decide)]
  · rw [init_isOk_eq]
    decide

/-- Counterexample for C2 as stated: the string made of cats followed by one
newline character is not in the language of the anchored pattern under its
plain full-string reading, yet init accepts it as a table name, because
python re.match lets the dollar anchor match just before a trailing
newline. -/
theorem init_trailing_newline_counterexample :
    fullPat (("cats\n" : String)).data = false
    ∧ (init promptTemplate [] "cats\n" none none none none).isOk = true := by
  constructor
  · decide
  · rw [init_isOk_eq]
    decide

/-! ## C6: the startup greeting -/

/-- C6 (amended): on session start, a greeting configured as any non-empty
string — blank lines included — is displayed verbatim; when no greeting was
configured (None) a one-shot model request for a friendly greeting is issued;
when the greeting is the empty string, nothing is displayed and no request is
issued. -/
theorem greet_on_startup_behavior (g : String) :
    (g ≠ "" → greet_on_startup (some g) = GreetAction.displayGreeting g)
    ∧ greet_on_startup none = GreetAction.requestModelGreeting
    ∧ greet_on_startup (some "") = GreetAction.noAction := by
  refine ⟨fun h => ?_, rfl, rfl⟩
  simp [greet_on_startup, h]

/-- Witness for C6: a non-empty greeting is displayed verbatim. -/
theorem greet_on_startup_behavior_witness :
    ("Hello! Ask me about the data." ≠ "")
    ∧ greet_on_startup (some "Hello! Ask me about the data.") =
        GreetAction.displayGreeting "Hello! Ask me about the data." :=
  ⟨by decide,
   (greet_on_startup_behavior "Hello! Ask me about the data.").1 (by decide)⟩

/-- Counterexample for C6 as stated: a greeting made of one newline consists
only of blank lines (the content test of the server body is false on it), yet
the startup effect displays it verbatim instead of issuing the one-shot model
request the claim demands for blank-only greetings. -/
theorem greet_blank_counterexample :
    greeting_has_content "\n" = false
    ∧ greet_on_startup (some "\n") = GreetAction.displayGreeting "\n"
    ∧ greet_on_startup (some "\n") ≠ GreetAction.requestModelGreeting := by
  refine ⟨by decide, rfl, by decide⟩

/-! ## C8: the filtered view -/

/-- C8: the filtered view is the unfiltered dataframe when the current sql
text is empty (the default), and the result of re-executing the current sql
against the engine when it is non-empty. -/
theorem filtered_df_derivation {D : Type} (df : D) (execDf : String → D)
    (s : SessionState) :
    (s.currentQuery = "" → filtered_df df execDf s = df)
    ∧ (s.currentQuery ≠ "" → filtered_df df execDf s = execDf s.currentQuery) := by
  constructor <;> intro h <;> simp [filtered_df, h]

/-- Witness for C8 at a concrete state: empty current sql yields the
unfiltered dataframe, non-empty current sql yields the engine result. -/
theorem filtered_df_derivation_witness :
    (SessionState.mk "" none).currentQuery = ""
    ∧ filtered_df 0 (fun _ => 1) (SessionState.mk "" none) = 0
    ∧ filtered_df 0 (fun _ => 1) (SessionState.mk "SELECT 1" none) = 1 :=
  ⟨rfl,
   (filtered_df_derivation 0 (fun _ => 1) (SessionState.mk "" none)).1 rfl,
   (filtered_df_derivation 0 (fun _ => 1) (SessionState.mk "SELECT 1" none)).2
     (by decide)⟩

/-! ## C1 and C7: the update_dashboard tool -/

/-- C1: when the engine rejects the sql, update_dashboard streams the sql
block and then the engine error text into the transcript, re-raises the same
error, and leaves the session state exactly as it was — no partial
mutation of current sql or current title. -/
theorem update_dashboard_error_no_mutation
    (execQ : Option String → Except String Unit) (q : String)
    (t : Option String) (s : SessionState) (e : String)
    (h : execQ (some q) = Except.error e) :
    update_dashboard execQ (some q) t s =
      ([sqlBlock (some q), errorLine e], s, Except.error e) := by
  unfold update_dashboard
  rw [h]

/-- Witness for C1: a rejected query leaves the fresh session state
untouched, surfaces the error line, and re-raises. -/
theorem update_dashboard_error_no_mutation_witness :
    execErrAlways (some "SELEKT bad syntax") =
      Except.error "Parser Error: syntax error at or near SELEKT"
    ∧ update_dashboard execErrAlways (some "SELEKT bad syntax") (some "x")
        (SessionState.mk "" none) =
      ([sqlBlock (some "SELEKT bad syntax"),
        errorLine "Parser Error: syntax error at or near SELEKT"],
       SessionState.mk "" none,
       Except.error "Parser Error: syntax error at or near SELEKT") :=
  ⟨rfl,
   update_dashboard_error_no_mutation execErrAlways "SELEKT bad syntax"
     (some "x") (SessionState.mk "" none) _ rfl⟩

/-- C7: when the engine accepts the query, update_dashboard succeeds and
updates the two reactive values independently: the current sql becomes the
query argument when that argument is non-null and is kept otherwise, and the
current title becomes the title argument when that argument is non-null and
is kept otherwise. -/
theorem update_dashboard_success_updates
    (execQ : Option String → Except String Unit) (q t : Option String)
    (s : SessionState) (h : execQ q = Except.ok ()) :
    update_dashboard execQ q t s =
      ([sqlBlock q],
       SessionState.mk (q.getD s.currentQuery) (t.or s.currentTitle),
       Except.ok ()) := by
  unfold update_dashboard
  rw [h]
  cases q <;> cases t <;> rfl

/-! ## C3: the query tool -/

/-- C3: when the engine accepts the query and the result has more than five
rows, the query tool streams the sql block and then an html preview made of
the rendering of exactly the first five rows followed by a truncation notice
citing the total row count, and returns the json array holding one record per
row of the full, uncapped result. -/
theorem query_uncapped_json_capped_preview (render : List Row → String)
    (rowJson : Row → String) (execDf : String → Except String (List Row))
    (q : String) (rows : List Row) (hexec : execDf q = Except.ok rows)
    (hn : 5 < rows.length) :
    query render rowJson execDf q =
      ([sqlBlock (some q),
        render (rows.take 5) ++
          ("\n\n(Showing only the first " ++ toString (5 : Nat) ++
            " rows out of " ++ toString rows.length ++ ".)\n") ++ "\n\n"],
       Except.ok ("[" ++ String.intercalate "," (rows.map rowJson) ++ "]"))
    ∧ (rows.map rowJson).length = rows.length
    ∧ (rows.take 5).length = 5 := by
  have hlen : (rows.take 5).length = 5 := by
    rw [List.length_take]
    omega
  have hne2 : ((rows.take 5).length != rows.length) = true := by
    rw [hlen]
    simp only [bne_iff_ne, ne_eq]
    omega
  refine ⟨?_, by simp, hlen⟩
  unfold query
  rw [hexec]
  show ([sqlBlock (some q), df_to_html render rows 5 ++ "\n\n"],
        Except.ok (dfToJsonRecords rowJson rows)) = _
  unfold df_to_html dfToJsonRecords
  rw [hne2, if_pos rfl]

/-- Witness for C3 at a twenty-row result with cap five: the json holds
twenty records and the notice cites 20. -/
theorem query_uncapped_json_capped_preview_witness :
    execDf20 "SELECT name FROM cats LIMIT 20" = Except.ok rows20
    ∧ 5 < rows20.length
    ∧ toString rows20.length = "20"
    ∧ ((query render0 rowJson0 execDf20 "SELECT name FROM cats LIMIT 20" =
        ([sqlBlock (some "SELECT name FROM cats LIMIT 20"),
          render0 (rows20.take 5) ++
            ("\n\n(Showing only the first " ++ toString (5 : Nat) ++
              " rows out of " ++ toString rows20.length ++ ".)\n") ++ "\n\n"],
         Except.ok ("[" ++ String.intercalate "," (rows20.map rowJson0) ++ "]")))
      ∧ (rows20.map rowJson0).length = rows20.length
      ∧ (rows20.take 5).length = 5) :=
  ⟨rfl, by decide, rfl,
   query_uncapped_json_capped_preview render0 rowJson0 execDf20
     "SELECT name FROM cats LIMIT 20" rows20 rfl (by decide)⟩

/-! ## C4 and C9: the schema summarizer -/

/-- C4: a text column carries a Categorical values line — listing the quoted,
comma-joined distinct non-missing values — exactly when its distinct
non-missing value count is at most the threshold; above the threshold its
block is the bare header line, with neither a categorical nor a range
annotation. -/
theorem text_column_categorical_iff (T : Nat) (name : String)
    (vs : List (Option String)) :
    ((uniqueFirst (vs.filterMap id)).length ≤ T ↔
      columnInfo T (Column.textCol name vs) =
        ["- " ++ name ++ " (" ++ "TEXT" ++ ")",
         "  Categorical values: " ++
           String.intercalate ", "
             ((uniqueFirst (vs.filterMap id)).map
               (fun v => "\x27" ++ v ++ "\x27"))])
    ∧ (T < (uniqueFirst (vs.filterMap id)).length →
      columnInfo T (Column.textCol name vs) =
        ["- " ++ name ++ " (" ++ "TEXT" ++ ")"]) := by
  have hpos : (uniqueFirst (vs.filterMap id)).length ≤ T →
      columnInfo T (Column.textCol name vs) =
        ["- " ++ name ++ " (" ++ "TEXT" ++ ")",
         "  Categorical values: " ++
           String.intercalate ", "
             ((uniqueFirst (vs.filterMap id)).map
               (fun v => "\x27" ++ v ++ "\x27"))] := by
    intro h
    simp [columnInfo, colName, sqlTypeName, h]
  have hneg : ¬ (uniqueFirst (vs.filterMap id)).length ≤ T →
      columnInfo T (Column.textCol name vs) =
        ["- " ++ name ++ " (" ++ "TEXT" ++ ")"] := by
    intro h
    simp [columnInfo, colName, sqlTypeName, h]
  constructor
  · constructor
    · exact hpos
    · intro heq
      by_contra h
      rw [hneg h] at heq
      simp at heq
  · intro h
    exact hneg (by omega)

/-- Witness for C4: a text column with two distinct non-missing values and
threshold ten receives exactly the categorical line; with threshold one it
receives the bare header. -/
theorem text_column_categorical_iff_witness :
    ((uniqueFirst ([some "tabby", none, some "calico", some "tabby"].filterMap
        id)).length ≤ 10
      ∧ columnInfo 10 (Column.textCol "breed"
          [some "tabby", none, some "calico", some "tabby"]) =
        ["- " ++ "breed" ++ " (" ++ "TEXT" ++ ")",
         "  Categorical values: " ++
           String.intercalate ", "
             ((uniqueFirst ([some "tabby", none, some "calico",
                 some "tabby"].filterMap id)).map
               (fun v => "\x27" ++ v ++ "\x27"))])
    ∧ (1 < (uniqueFirst ([some "tabby", none, some "calico",
          some "tabby"].filterMap id)).length
      ∧ columnInfo 1 (Column.textCol "breed"
          [some "tabby", none, some "calico", some "tabby"]) =
        ["- " ++ "breed" ++ " (" ++ "TEXT" ++ ")"]) :=
  ⟨⟨by decide,
    (text_column_categorical_iff 10 "breed"
      [some "tabby", none, some "calico", some "tabby"]).1.mp (by decide)⟩,
   ⟨by decide,
    (text_column_categorical_iff 1 "breed"
      [some "tabby", none, some "calico", some "tabby"]).2 (by decide)⟩⟩

/-- C9: an integer, float, date or datetime column whose values are all
missing gets the block line Range: NULL to NULL; otherwise its block line
shows the literal minimum and maximum computed over the non-missing values
(the stated min and max are members of the column and bound every non-missing
value). -/
theorem numeric_column_range (T : Nat) (k : NumKind) (name : String)
    (vs : List (Option Int)) :
    (vs.filterMap id = [] →
      columnInfo T (Column.numCol name k vs) =
        ["- " ++ name ++ " (" ++ numKindName k ++ ")",
         "  Range: NULL to NULL"])
    ∧ (vs.filterMap id ≠ [] →
      ∃ mn mx, (vs.filterMap id).min? = some mn
        ∧ (vs.filterMap id).max? = some mx
        ∧ mn ∈ vs.filterMap id ∧ mx ∈ vs.filterMap id
        ∧ (∀ x ∈ vs.filterMap id, mn ≤ x ∧ x ≤ mx)
        ∧ columnInfo T (Column.numCol name k vs) =
            ["- " ++ name ++ " (" ++ numKindName k ++ ")",
             "  Range: " ++ toString mn ++ " to " ++ toString mx]) := by
  constructor
  · intro h
    simp [columnInfo, colName, sqlTypeName, h]
  · intro h
    obtain ⟨a, nn, hnn⟩ : ∃ a nn, vs.filterMap id = a :: nn := by
      cases hv : vs.filterMap id with
      | nil => exact absurd hv h
      | cons a l => exact ⟨a, l, rfl⟩
    have hmin : (vs.filterMap id).min? = some (nn.foldl min a) := by
      rw [hnn]
      rfl
    have hmax : (vs.filterMap id).max? = some (nn.foldl max a) := by
      rw [hnn]
      rfl
    refine ⟨nn.foldl min a, nn.foldl max a, hmin, hmax,
      List.min?_mem (fun x y => min_choice x y) hmin,
      List.max?_mem (fun x y => max_choice x y) hmax, ?_, ?_⟩
    · intro x hx
      exact ⟨((List.le_min?_iff (fun x y z => le_min_iff) hmin).1
          (le_refl _)) x hx,
        ((List.max?_le_iff (fun x y z => max_le_iff) hmax).1
          (le_refl _)) x hx⟩
    · simp [columnInfo, colName, sqlTypeName, hmin, hmax, fmtOptInt]

/-- Witness for C9: an all-missing integer column reads NULL to NULL, and a
column with non-missing values 3 and 7 has minimum 3 and maximum 7. -/
theorem numeric_column_range_witness :
    (([none, none] : List (Option Int)).filterMap id = []
      ∧ columnInfo 10 (Column.numCol "age" NumKind.integer [none, none]) =
        ["- " ++ "age" ++ " (" ++ numKindName NumKind.integer ++ ")",
         "  Range: NULL to NULL"])
    ∧ (([some 3, none, some 7] : List (Option Int)).filterMap id ≠ []
      ∧ ∃ mn mx,
          (([some 3, none, some 7] : List (Option Int)).filterMap id).min? =
            some mn
          ∧ (([some 3, none, some 7] : List (Option Int)).filterMap id).max? =
            some mx
          ∧ mn ∈ ([some 3, none, some 7] : List (Option Int)).filterMap id
          ∧ mx ∈ ([some 3, none, some 7] : List (Option Int)).filterMap id
          ∧ (∀ x ∈ ([some 3, none, some 7] : List (Option Int)).filterMap id,
              mn ≤ x ∧ x ≤ mx)
          ∧ columnInfo 10 (Column.numCol "age" NumKind.integer
              [some 3, none, some 7]) =
            ["- " ++ "age" ++ " (" ++ numKindName NumKind.integer ++ ")",
             "  Range: " ++ toString mn ++ " to " ++ toString mx]) :=
  ⟨⟨by decide,
    (numeric_column_range 10 NumKind.integer "age" [none, none]).1 (by decide)⟩,
   ⟨by decide,
    (numeric_column_range 10 NumKind.integer "age" [some 3, none, some 7]).2
      (by decide)⟩⟩

/-- Witness for C7: after a successful update with the example query and the
title Old cats, the current sql is that statement and the current title is
Old cats. -/
theorem update_dashboard_success_updates_witness :
    execOkAlways (some "SELECT * FROM cats WHERE age > 100") = Except.ok ()
    ∧ update_dashboard execOkAlways
        (some "SELECT * FROM cats WHERE age > 100") (some "Old cats")
        (SessionState.mk "" none) =
      ([sqlBlock (some "SELECT * FROM cats WHERE age > 100")],
       SessionState.mk "SELECT * FROM cats WHERE age > 100" (some "Old cats"),
       Except.ok ()) :=
  ⟨rfl,
   Eq.trans
     (update_dashboard_success_updates execOkAlways
       (some "SELECT * FROM cats WHERE age > 100") (some "Old cats")
       (SessionState.mk "" none) rfl)
     rfl⟩

end Querychat
